import Mathlib

/-!
Verification of the enrollment state machine and gate-authorization logic of
midorSys (src/main.py).

The database tables (SQLAlchemy models `User`, `AccessLog`,
`RegistrationSession`, main.py lines 68-93) are embedded as Lean structures and
the database as lists of rows.  The HTTP handlers `api_scan` (lines 125-138),
`api_register_start` (lines 140-160), `api_register_scan` (lines 162-220) and
`check_status` (lines 333-354) are embedded as pure functions from a database
state (plus the current clock value) to a response together with the successor
state.  Timestamps are natural numbers; `datetime.utcnow() + timedelta(seconds=90)`
becomes `now + 90`.  JSON request fields obtained with `data.get(...)` are
`Option String`, and Python falsiness (`if not x`) covers both absence and the
empty string.

The email-verification columns of `User` (`email_verified`,
`verification_token`, `token_expires_at`, `created_at`) are not read or written
by any of the four handlers above and are omitted from the row structure.
-/

/-- Row of the `users` table (main.py lines 68-76).  `rfid_uid` is a single
nullable column declared `unique=True` (line 72). -/
structure User where
  student_id : String
  name : String
  rfid_uid : Option String
deriving Repr, DecidableEq

/-- Row of the `access_logs` table (main.py lines 78-84). -/
structure AccessLog where
  student_id : String
  rfid_uid : String
  action : String
deriving Repr, DecidableEq

/-- Row of the `registration_sessions` table (main.py lines 86-91),
keyed by `student_id`. -/
structure RegistrationSession where
  student_id : String
  first_uid : Option String
  step : Nat
  expires_at : Option Nat
deriving Repr, DecidableEq

/-- The database state: the three tables touched by the modelled handlers. -/
structure DB where
  users : List User
  access_logs : List AccessLog
  sessions : List RegistrationSession
deriving Repr, DecidableEq

/-- `db.query(User).filter(User.rfid_uid == rfid_uid).first()` (main.py line 132). -/
def findUserByUid (db : DB) (uid : String) : Option User :=
  db.users.find? (fun u => u.rfid_uid == some uid)

/-- `db.query(User).filter(and_(User.rfid_uid == rfid_uid, User.student_id != student_id)).first()`
(main.py lines 177 and 200). -/
def findOtherWithUid (db : DB) (uid sid : String) : Option User :=
  db.users.find? (fun u => u.rfid_uid == some uid && u.student_id != sid)

/-- `db.query(User).filter(User.student_id == student_id).first()`
(main.py lines 146, 195). -/
def findUser (db : DB) (sid : String) : Option User :=
  db.users.find? (fun u => u.student_id == sid)

/-- `db.query(RegistrationSession).filter(RegistrationSession.student_id == student_id).first()`
(main.py lines 151, 170). -/
def findSession (db : DB) (sid : String) : Option RegistrationSession :=
  db.sessions.find? (fun s => s.student_id == sid)

/-- UPDATE of the session row keyed by `student_id` (the primary key), as
performed by attribute assignment on the ORM object followed by commit. -/
def setSession (db : DB) (sid : String) (f : RegistrationSession → RegistrationSession) : DB :=
  { db with sessions := db.sessions.map (fun s => if s.student_id == sid then f s else s) }

/-- `db.delete(session)` for the session keyed by `sid` (main.py lines 202, 209). -/
def deleteSession (db : DB) (sid : String) : DB :=
  { db with sessions := db.sessions.filter (fun s => s.student_id != sid) }

/-- `db.add(AccessLog(student_id=..., rfid_uid=..., action=...))` followed by
commit (main.py lines 134, 186, 208): rows append to the table. -/
def addLog (db : DB) (sid uid act : String) : DB :=
  { db with access_logs := db.access_logs ++ [⟨sid, uid, act⟩] }

/-- `user.rfid_uid = rfid_uid` on the row keyed by `student_id` (main.py
line 207): an UPDATE of the single row with that primary key. -/
def setUserUid (db : DB) (sid uid : String) : DB :=
  { db with users := db.users.map (fun u =>
      if u.student_id == sid then { u with rfid_uid := some uid } else u) }

/-- `session.expires_at and session.expires_at < datetime.utcnow()`
(main.py line 171): a NULL `expires_at` never counts as expired. -/
def sessionExpired (s : RegistrationSession) (now : Nat) : Bool :=
  match s.expires_at with
  | none => false
  | some e => decide (e < now)

/-- Responses of POST /api/scan (main.py lines 125-138). -/
inductive ScanResp where
  | missing_rfid
  | allow (student_id name : String)
  | deny
deriving Repr, DecidableEq

/-- POST /api/scan (main.py lines 125-138): the Gate Authorizer.  On a bound
card it appends an `entry` access log and answers allow; on an unknown card it
answers deny and writes nothing. -/
def api_scan (db : DB) (rfid_uid? : Option String) : ScanResp × DB :=
  let rfid_uid := rfid_uid?.getD ""
  if rfid_uid == "" then (.missing_rfid, db)
  else match findUserByUid db rfid_uid with
  | some user => (.allow user.student_id user.name, addLog db user.student_id rfid_uid "entry")
  | none => (.deny, db)

/-- Responses of POST /api/register/start (main.py lines 140-160). -/
inductive StartResp where
  | missing_student_id
  | user_not_found
  | ok
deriving Repr, DecidableEq

/-- POST /api/register/start (main.py lines 140-160): requires the user to
exist, then creates or resets the registration session to step 0 with
`first_uid` cleared and `expires_at = now + 90`. -/
def api_register_start (db : DB) (now : Nat) (student_id? : Option String) : StartResp × DB :=
  let student_id := student_id?.getD ""
  if student_id == "" then (.missing_student_id, db)
  else match findUser db student_id with
  | none => (.user_not_found, db)
  | some _ =>
    match findSession db student_id with
    | some _ => (.ok, setSession db student_id (fun s =>
        { s with first_uid := none, step := 0, expires_at := some (now + 90) }))
    | none => (.ok, { db with sessions := db.sessions ++ [⟨student_id, none, 0, some (now + 90)⟩] })

/-- Responses of POST /api/register/scan (main.py lines 162-220).
`none_resp` is the implicit `None` fall-through when `step` is neither 0 nor 1. -/
inductive RegScanResp where
  | missing_data
  | no_session_or_expired
  | uid_already_bound
  | first_scan_ok
  | user_not_found
  | uid_already_bound_by_other
  | bound
  | mismatch
  | none_resp
deriving Repr, DecidableEq

/-- POST /api/register/scan (main.py lines 162-220): the enrollment state
machine.  Step 0 is the first scan; step 1 is the confirm scan.  On confirm
with a matching card the handler re-checks that no other user holds the card,
then sets the user's `rfid_uid`, appends a `bind` access log and deletes the
session (lines 199-213).  On a mismatching confirm card it resets the session
to step 0 with a fresh TTL and appends nothing (lines 214-220). -/
def api_register_scan (db : DB) (now : Nat) (student_id? rfid_uid? : Option String) :
    RegScanResp × DB :=
  let student_id := student_id?.getD ""
  let rfid_uid := rfid_uid?.getD ""
  if student_id == "" || rfid_uid == "" then (.missing_data, db)
  else match findSession db student_id with
  | none => (.no_session_or_expired, db)
  | some session =>
    if sessionExpired session now then (.no_session_or_expired, db)
    else if session.step == 0 then
      if (findOtherWithUid db rfid_uid student_id).isSome then (.uid_already_bound, db)
      else
        let db1 := setSession db student_id (fun s =>
          { s with first_uid := some rfid_uid, step := 1, expires_at := some (now + 90) })
        (.first_scan_ok, addLog db1 student_id rfid_uid "SCAN_1")
    else if session.step == 1 then
      if session.first_uid == some rfid_uid then
        match findUser db student_id with
        | none => (.user_not_found, db)
        | some _ =>
          if (findOtherWithUid db rfid_uid student_id).isSome then
            (.uid_already_bound_by_other, deleteSession db student_id)
          else
            let db1 := setUserUid db student_id rfid_uid
            let db2 := addLog db1 student_id rfid_uid "bind"
            (.bound, deleteSession db2 student_id)
      else
        (.mismatch, setSession db student_id (fun s =>
          { s with first_uid := none, step := 0, expires_at := some (now + 90) }))
    else (.none_resp, db)

/-- The session projection that GET /check_status tries to build
(main.py lines 344-349). -/
structure SessionInfo where
  step : Nat
  expires_at : Nat
  first_rfid_uid : Option String
deriving Repr, DecidableEq

/-- Body of the /check_status response (main.py lines 351-354). -/
structure StatusResp where
  bound : Bool
  session : Option SessionInfo
deriving Repr, DecidableEq

/-- The session query of /check_status (main.py lines 338-341): the row for
`student_id` whose `expires_at` lies strictly in the future (a NULL
`expires_at` fails the SQL comparison and is filtered out). -/
def findActiveSession (db : DB) (sid : String) (now : Nat) : Option RegistrationSession :=
  db.sessions.find? (fun s => s.student_id == sid &&
    (match s.expires_at with | some e => decide (now < e) | none => false))

/-- GET /check_status/{student_id} (main.py lines 333-354).  When an active
session is found, line 348 reads `session.first_rfid_uid`, but the
`RegistrationSession` model declares that column as `first_uid` (line 89);
the attribute access raises `AttributeError` and the handler fails.  The
failure is embedded as the `.error` branch.  With no active session the
handler returns `bound = bool(user and user.rfid_uid)` and a null session. -/
def check_status (db : DB) (now : Nat) (sid : String) : Except String StatusResp :=
  match findActiveSession db sid now with
  | some _ => .error "AttributeError: RegistrationSession object has no attribute first_rfid_uid"
  | none =>
    .ok { bound := (match findUser db sid with
                    | some u => u.rfid_uid.getD "" != ""
                    | none => false),
          session := none }

/-!
Fine-grained model of the confirm step for the concurrency claim.

The matching-confirm branch of `/api/register/scan` (main.py lines 193-213)
runs as one database transaction made of two separately executed parts:

* the uniqueness re-check, a SELECT at line 200 reading the committed state at
  that moment, and
* the write set — `user.rfid_uid = rfid_uid`, the `bind` access-log INSERT and
  the session DELETE — applied atomically at `db.commit()` (line 210).

Under the default read-committed isolation two such transactions for different
identities and the same card can both pass the SELECT.  The UNIQUE constraint
on `users.rfid_uid` (line 72) then rejects the second COMMIT: SQLAlchemy
raises `IntegrityError` (imported at main.py line 9 but never caught in the
handler), the transaction rolls back, and the request fails with an unhandled
exception instead of the `uid_already_bound_by_other` response.

Each confirm call is a task with two atomic phases, `atCheck` and `atCommit`;
a schedule interleaves the phases of two tasks.  The failing-check path
(lines 201-204: delete the session, commit, answer already-bound) is taken in
one atomic step.
-/

/-- Outcome of one confirm-step transaction in the race model. -/
inductive ConfirmOutcome where
  | bound
  | uid_already_bound_by_other
  | integrity_error
deriving Repr, DecidableEq

/-- Phase of a confirm-step transaction: before its SELECT, before its COMMIT,
or finished. -/
inductive CPhase where
  | atCheck
  | atCommit
  | finished
deriving Repr, DecidableEq

/-- One in-flight confirm-step call of `/api/register/scan`. -/
structure ConfirmTask where
  sid : String
  uid : String
  phase : CPhase
  result : Option ConfirmOutcome
deriving Repr, DecidableEq

/-- One atomic phase of a confirm-step transaction against the committed
database state. -/
def stepConfirm (db : DB) (t : ConfirmTask) : DB × ConfirmTask :=
  match t.phase with
  | .atCheck =>
    if (findOtherWithUid db t.uid t.sid).isSome then
      (deleteSession db t.sid,
       { t with phase := .finished, result := some .uid_already_bound_by_other })
    else (db, { t with phase := .atCommit })
  | .atCommit =>
    if (findOtherWithUid db t.uid t.sid).isSome then
      (db, { t with phase := .finished, result := some .integrity_error })
    else
      (deleteSession (addLog (setUserUid db t.sid t.uid) t.sid t.uid "bind") t.sid,
       { t with phase := .finished, result := some .bound })
  | .finished => (db, t)

/-- Committed database state plus the two racing confirm calls. -/
structure RaceState where
  db : DB
  ta : ConfirmTask
  tb : ConfirmTask
deriving Repr, DecidableEq

/-- Run one phase of task A (when the flag is true) or task B. -/
def raceStep (st : RaceState) (pickA : Bool) : RaceState :=
  if pickA then
    let r := stepConfirm st.db st.ta
    { st with db := r.1, ta := r.2 }
  else
    let r := stepConfirm st.db st.tb
    { st with db := r.1, tb := r.2 }

/-- Run a schedule of interleaved phases. -/
def runRace (st : RaceState) (sched : List Bool) : RaceState :=
  sched.foldl raceStep st

/-!
Concrete database states used by witnesses and counterexamples.
-/

/-- Two users, one bound card, one confirm-step session. -/
def dbC1 : DB :=
  ⟨[⟨"s1", "Alice", none⟩, ⟨"s2", "Bob", some "cardB"⟩], [],
   [⟨"s1", some "cardA", 1, some 100⟩]⟩

/-- One user that already holds a bound card, no sessions. -/
def dbC3 : DB := ⟨[⟨"s1", "Alice", some "cardA"⟩], [], []⟩

/-- A fresh step-0 session for s1; cardB belongs to s2. -/
def dbC4 : DB := ⟨[⟨"s1", "Alice", none⟩, ⟨"s2", "Bob", some "cardB"⟩], [],
  [⟨"s1", none, 0, some 100⟩]⟩

/-- A confirm-step session for s1 pending cardA. -/
def dbC5 : DB := ⟨[⟨"s1", "Alice", none⟩], [], [⟨"s1", some "cardA", 1, some 100⟩]⟩

/-- One bound user, no sessions. -/
def dbC6 : DB := ⟨[⟨"s1", "Alice", some "cardA"⟩], [], []⟩

/-- A confirm-step session for s1 pending cardA; cardB belongs to s2. -/
def dbC7 : DB := ⟨[⟨"s1", "Alice", none⟩, ⟨"s2", "Bob", some "cardB"⟩], [],
  [⟨"s1", some "cardA", 1, some 100⟩]⟩

/-- A confirm-step session for s1 pending cardB, which belongs to s2. -/
def dbC7b : DB := ⟨[⟨"s1", "Alice", none⟩, ⟨"s2", "Bob", some "cardB"⟩], [],
  [⟨"s1", some "cardB", 1, some 100⟩]⟩

/-- A session that expires at time 100. -/
def dbC8 : DB := ⟨[⟨"s1", "Alice", none⟩], [], [⟨"s1", some "cardA", 1, some 100⟩]⟩

/-- An active (non-expired) session for s1. -/
def dbC9 : DB := ⟨[⟨"s1", "Alice", none⟩], [], [⟨"s1", none, 0, some 100⟩]⟩

/-- An already-bound user with a confirm-step session pending a new card. -/
def dbC10 : DB := ⟨[⟨"s1", "Alice", some "cardOld"⟩], [],
  [⟨"s1", some "cardNew", 1, some 100⟩]⟩

/-- Two unbound users, both holding confirm-step sessions pending the same
still-unbound card. -/
def dbC2 : DB := ⟨[⟨"s1", "Alice", none⟩, ⟨"s2", "Bob", none⟩], [],
  [⟨"s1", some "card1", 1, some 1000⟩, ⟨"s2", some "card1", 1, some 1000⟩]⟩

/-- The two racing confirm calls over `dbC2`, both at their SELECT. -/
def raceC2 : RaceState :=
  ⟨dbC2, ⟨"s1", "card1", .atCheck, none⟩, ⟨"s2", "card1", .atCheck, none⟩⟩

/-- The card-uniqueness invariant: any card is bound to at most one identity
(rows sharing a bound card belong to the same `student_id`). -/
def cardUnique (db : DB) : Prop :=
  ∀ u₁ ∈ db.users, ∀ u₂ ∈ db.users, ∀ c : String,
    u₁.rfid_uid = some c → u₂.rfid_uid = some c → u₁.student_id = u₂.student_id

-- ===== branch evaluation lemmas =====

lemma register_scan_first
    (db : DB) (now : Nat) (sid card : String) (s : RegistrationSession)
    (hsid : sid ≠ "") (hcard : card ≠ "")
    (hs : findSession db sid = some s)
    (hexp : sessionExpired s now = false)
    (hstep : s.step = 0)
    (hother : findOtherWithUid db card sid = none) :
    api_register_scan db now (some sid) (some card) =
      (.first_scan_ok,
       addLog (setSession db sid (fun t =>
         { t with first_uid := some card, step := 1, expires_at := some (now + 90) }))
         sid card "SCAN_1") := by
  unfold api_register_scan
  simp [hs, hexp, hstep, hother, hsid, hcard]

lemma register_scan_bind
    (db : DB) (now : Nat) (sid card : String) (s : RegistrationSession) (u : User)
    (hsid : sid ≠ "") (hcard : card ≠ "")
    (hs : findSession db sid = some s)
    (hexp : sessionExpired s now = false)
    (hstep : s.step = 1)
    (hfirst : s.first_uid = some card)
    (hu : findUser db sid = some u)
    (hother : findOtherWithUid db card sid = none) :
    api_register_scan db now (some sid) (some card) =
      (.bound, deleteSession (addLog (setUserUid db sid card) sid card "bind") sid) := by
  unfold api_register_scan
  simp [hs, hexp, hstep, hfirst, hu, hother, hsid, hcard]

lemma register_scan_mismatch
    (db : DB) (now : Nat) (sid card : String) (s : RegistrationSession)
    (hsid : sid ≠ "") (hcard : card ≠ "")
    (hs : findSession db sid = some s)
    (hexp : sessionExpired s now = false)
    (hstep : s.step = 1)
    (hfirst : s.first_uid ≠ some card) :
    api_register_scan db now (some sid) (some card) =
      (.mismatch, setSession db sid (fun t =>
        { t with first_uid := none, step := 0, expires_at := some (now + 90) })) := by
  unfold api_register_scan
  simp [hs, hexp, hstep, hfirst, hsid, hcard]

lemma register_scan_expired
    (db : DB) (now : Nat) (sid card : String) (s : RegistrationSession)
    (hsid : sid ≠ "") (hcard : card ≠ "")
    (hs : findSession db sid = some s)
    (hexp : sessionExpired s now = true) :
    api_register_scan db now (some sid) (some card) = (.no_session_or_expired, db) := by
  unfold api_register_scan
  simp [hs, hexp, hsid, hcard]

lemma register_scan_bound_first
    (db : DB) (now : Nat) (sid card : String) (s : RegistrationSession)
    (hsid : sid ≠ "") (hcard : card ≠ "")
    (hs : findSession db sid = some s)
    (hexp : sessionExpired s now = false)
    (hstep : s.step = 0)
    (hother : (findOtherWithUid db card sid).isSome) :
    api_register_scan db now (some sid) (some card) = (.uid_already_bound, db) := by
  unfold api_register_scan
  simp [hs, hexp, hstep, hother, hsid, hcard]

lemma register_scan_bound_confirm
    (db : DB) (now : Nat) (sid card : String) (s : RegistrationSession)
    (hsid : sid ≠ "") (hcard : card ≠ "")
    (hs : findSession db sid = some s)
    (hexp : sessionExpired s now = false)
    (hstep : s.step = 1)
    (hfirst : s.first_uid = some card)
    (hu : (findUser db sid).isSome)
    (hother : (findOtherWithUid db card sid).isSome) :
    api_register_scan db now (some sid) (some card) =
      (.uid_already_bound_by_other, deleteSession db sid) := by
  unfold api_register_scan
  obtain ⟨u, hu'⟩ := Option.isSome_iff_exists.mp hu
  simp [hs, hexp, hstep, hfirst, hu', hother, hsid, hcard]

-- ===== store-shape lemmas =====

lemma findSession_setSession_self (db : DB) (sid : String)
    (f : RegistrationSession → RegistrationSession)
    (hf : ∀ s, (f s).student_id = s.student_id) :
    findSession (setSession db sid f) sid = (findSession db sid).map f := by
  unfold findSession setSession
  induction db.sessions with
  | nil => rfl
  | cons s t ih =>
    by_cases hss : s.student_id = sid
    · simp [List.find?_cons, hss, hf]
    · simpa [List.find?_cons, hss, hf] using ih

lemma findSession_deleteSession_self (db : DB) (sid : String) :
    findSession (deleteSession db sid) sid = none := by
  unfold findSession deleteSession
  rw [List.find?_eq_none]
  intro s hs
  have := (List.mem_filter.mp hs).2
  simp only [bne_iff_ne, ne_eq] at this
  simp [this]

lemma find?_uid_bind (l : List User) (sid card : String) (u : User)
    (huser : l.find? (fun v => v.student_id == sid) = some u)
    (hother : l.find? (fun v => v.rfid_uid == some card && v.student_id != sid) = none) :
    (l.map (fun v => if v.student_id == sid then { v with rfid_uid := some card } else v)).find?
      (fun v => v.rfid_uid == some card) = some { u with rfid_uid := some card } := by
  induction l with
  | nil => simp at huser
  | cons h t ih =>
    rw [List.find?_eq_none] at hother
    by_cases hh : h.student_id = sid
    · rw [List.find?_cons_of_pos _ (by simp [hh])] at huser
      injection huser with hu
      subst hu
      simp [List.find?_cons, hh]
    · have hmem := hother h (List.mem_cons_self h t)
      have hne : ¬ h.rfid_uid = some card := fun hc => hmem (by simp [hc, hh])
      rw [List.find?_cons_of_neg _ (by simp [hh])] at huser
      simp only [List.map_cons]
      rw [List.find?_cons_of_neg _ (by simp [hh, hne])]
      refine ih huser ?_
      rw [List.find?_eq_none]
      exact fun v hv => hother v (List.mem_cons_of_mem h hv)

lemma find?_sid_map_upd (l : List User) (sid card : String) (u : User)
    (hu : l.find? (fun v => v.student_id == sid) = some u) :
    (l.map (fun v => if v.student_id == sid then { v with rfid_uid := some card } else v)).find?
      (fun v => v.student_id == sid) = some { u with rfid_uid := some card } := by
  induction l with
  | nil => simp at hu
  | cons h t ih =>
    by_cases hh : h.student_id = sid
    · rw [List.find?_cons_of_pos _ (by simp [hh])] at hu
      injection hu with hu
      subst hu
      simp [List.find?_cons, hh]
    · rw [List.find?_cons_of_neg _ (by simp [hh])] at hu
      simp only [List.map_cons]
      rw [List.find?_cons_of_neg _ (by simp [hh])]
      exact ih hu

lemma findUser_setUserUid_self (db : DB) (sid card : String) (u : User)
    (hu : findUser db sid = some u) :
    findUser (setUserUid db sid card) sid = some { u with rfid_uid := some card } := by
  unfold findUser at hu ⊢
  unfold setUserUid
  exact find?_sid_map_upd db.users sid card u hu

lemma findUserByUid_setUserUid (db : DB) (sid card : String) (u : User)
    (hu : findUser db sid = some u)
    (hother : findOtherWithUid db card sid = none) :
    findUserByUid (setUserUid db sid card) card = some { u with rfid_uid := some card } := by
  unfold findUser at hu
  unfold findOtherWithUid at hother
  unfold findUserByUid setUserUid
  exact find?_uid_bind db.users sid card u hu hother

-- ===== card uniqueness =====

lemma cardUnique_of_users_eq (db db' : DB) (h : db'.users = db.users)
    (hc : cardUnique db) : cardUnique db' := by
  unfold cardUnique at hc ⊢
  rw [h]
  exact hc

lemma cardUnique_setUserUid (db : DB) (sid card : String)
    (h : cardUnique db)
    (hother : findOtherWithUid db card sid = none) :
    cardUnique (setUserUid db sid card) := by
  unfold findOtherWithUid at hother
  rw [List.find?_eq_none] at hother
  have hother2 : ∀ v ∈ db.users, v.rfid_uid = some card → v.student_id = sid := by
    intro v hv hc
    by_contra hvs
    exact hother v hv (by simp [hc, hvs])
  intro u₁ h₁ u₂ h₂ c e₁ e₂
  simp only [setUserUid, List.mem_map] at h₁ h₂
  obtain ⟨v₁, hv₁, rfl⟩ := h₁
  obtain ⟨v₂, hv₂, rfl⟩ := h₂
  by_cases b₁ : v₁.student_id = sid
  · by_cases b₂ : v₂.student_id = sid
    · simp [b₁, b₂]
    · simp [b₁] at e₁
      simp [b₂] at e₂
      have hv2s := hother2 v₂ hv₂ (by rw [e₁]; exact e₂)
      simp [b₁, b₂, hv2s]
  · by_cases b₂ : v₂.student_id = sid
    · simp [b₁] at e₁
      simp [b₂] at e₂
      have hv1s := hother2 v₁ hv₁ (by rw [e₂]; exact e₁)
      simp [b₁, b₂, hv1s]
    · simp [b₁] at e₁
      simp [b₂] at e₂
      simp [b₁, b₂]
      exact h v₁ hv₁ v₂ hv₂ c e₁ e₂

lemma users_api_scan (db : DB) (x : Option String) : (api_scan db x).2.users = db.users := by
  unfold api_scan
  dsimp only
  split
  · rfl
  · split <;> rfl

lemma users_register_start (db : DB) (now : Nat) (x : Option String) :
    (api_register_start db now x).2.users = db.users := by
  unfold api_register_start
  dsimp only
  split
  · rfl
  · split
    · rfl
    · split <;> rfl

lemma users_register_scan (db : DB) (now : Nat) (a b : Option String) :
    (api_register_scan db now a b).2.users = db.users ∨
    ((api_register_scan db now a b).2.users = (setUserUid db (a.getD "") (b.getD "")).users ∧
      findOtherWithUid db (b.getD "") (a.getD "") = none) := by
  unfold api_register_scan
  dsimp only
  split
  · left; rfl
  · split
    · left; rfl
    · split
      · left; rfl
      · split
        · split
          · left; rfl
          · left; rfl
        · split
          · split
            · split
              · left; rfl
              · split
                · left; rfl
                · next hother =>
                    right
                    exact ⟨rfl, Option.not_isSome_iff_eq_none.mp (by simpa using hother)⟩
            · left; rfl
          · left; rfl

-- ===== C1 =====

/-- C1: in every reachable state each card_id is bound to at most one identity:
the three operations — gate authorize (`api_scan`), StartSession
(`api_register_start`) and SubmitScan first/confirm (`api_register_scan`) —
all preserve the card-uniqueness invariant `cardUnique`. -/
theorem card_uniqueness_preserved (db : DB) (now : Nat) (x y a b : Option String)
    (h : cardUnique db) :
    cardUnique (api_scan db x).2 ∧
    cardUnique (api_register_start db now y).2 ∧
    cardUnique (api_register_scan db now a b).2 := by
  refine ⟨cardUnique_of_users_eq db _ (users_api_scan db x) h,
          cardUnique_of_users_eq db _ (users_register_start db now y) h, ?_⟩
  rcases users_register_scan db now a b with hu | ⟨hu, hother⟩
  · exact cardUnique_of_users_eq db _ hu h
  · exact cardUnique_of_users_eq (setUserUid db (a.getD "") (b.getD "")) _ hu
      (cardUnique_setUserUid db (a.getD "") (b.getD "") h hother)

theorem card_uniqueness_preserved_witness :
    cardUnique dbC1 ∧
    (cardUnique (api_scan dbC1 (some "cardB")).2 ∧
     cardUnique (api_register_start dbC1 50 (some "s1")).2 ∧
     cardUnique (api_register_scan dbC1 50 (some "s1") (some "cardA")).2) := by
  have h : cardUnique dbC1 := by
    intro u₁ h₁ u₂ h₂ c e₁ e₂
    simp [dbC1] at h₁ h₂
    rcases h₁ with rfl | rfl <;> rcases h₂ with rfl | rfl <;> simp_all
  exact ⟨h, card_uniqueness_preserved dbC1 50 (some "cardB") (some "s1")
    (some "s1") (some "cardA") h⟩

-- ===== C3 =====

/-- C3 counterexample: identity s1 already has a bound card (`dbC3`), yet
StartSession answers ok and creates a fresh session — it does not fail with
AlreadyBound as the claim states. -/
theorem start_session_ignores_existing_binding_cex :
    (api_register_start dbC3 10 (some "s1")).1 = .ok ∧
    (api_register_start dbC3 10 (some "s1")).2.sessions = [⟨"s1", none, 0, some 100⟩] := by
  constructor <;> rfl

/-- C3 amended: StartSession requires only that the identity exists (no
binding check): for every existing identity — bound or not — it answers ok and
creates or resets the session to step 0 (AWAITING_FIRST_SCAN) with
`first_uid` cleared and a fresh 90-second TTL. -/
theorem start_session_amended (db : DB) (now : Nat) (sid : String) (u : User)
    (hsid : sid ≠ "") (hu : findUser db sid = some u) :
    (api_register_start db now (some sid)).1 = .ok ∧
    ∃ s ∈ (api_register_start db now (some sid)).2.sessions,
      s.student_id = sid ∧ s.step = 0 ∧ s.first_uid = none ∧
      s.expires_at = some (now + 90) := by
  unfold api_register_start
  dsimp only
  simp only [Option.getD_some]
  rw [if_neg (by simp [hsid])]
  rw [hu]
  cases hss : findSession db sid with
  | none =>
    refine ⟨rfl, ⟨sid, none, 0, some (now + 90)⟩, ?_, rfl, rfl, rfl, rfl⟩
    simp
  | some s =>
    refine ⟨rfl, ?_⟩
    have hss2 : db.sessions.find? (fun t => t.student_id == sid) = some s := hss
    have hmem : s ∈ db.sessions := List.mem_of_find?_eq_some hss2
    have hpred : (s.student_id == sid) = true := by
      have := List.find?_some hss2
      simpa using this
    refine ⟨{ s with first_uid := none, step := 0, expires_at := some (now + 90) }, ?_, ?_, rfl, rfl, rfl⟩
    · unfold setSession
      dsimp only
      have := List.mem_map_of_mem
        (fun t : RegistrationSession =>
          if t.student_id == sid then
            { t with first_uid := none, step := 0, expires_at := some (now + 90) } else t) hmem
      simpa [hpred] using this
    · simpa using hpred

theorem start_session_amended_witness :
    "s1" ≠ "" ∧ findUser dbC3 "s1" = some ⟨"s1", "Alice", some "cardA"⟩ ∧
    ((api_register_start dbC3 10 (some "s1")).1 = .ok ∧
     ∃ s ∈ (api_register_start dbC3 10 (some "s1")).2.sessions,
       s.student_id = "s1" ∧ s.step = 0 ∧ s.first_uid = none ∧
       s.expires_at = some (10 + 90)) :=
  ⟨by decide, by decide,
   start_session_amended dbC3 10 "s1" ⟨"s1", "Alice", some "cardA"⟩ (by decide) (by decide)⟩

-- ===== C6 =====

/-- C6 counterexample: an unknown card is denied, but no audit record at all
is appended — `access_logs` stays empty, refuting the claimed ENTRY_DENY
record with null identity. -/
theorem deny_writes_no_audit_cex :
    (api_scan dbC6 (some "cardX")).1 = .deny ∧
    (api_scan dbC6 (some "cardX")).2.access_logs = [] := by
  constructor <;> rfl

/-- C6 amended: for every card with no existing binding, authorize answers
Deny without error and leaves the database — audit log included — entirely
unchanged; an unknown card is a normal outcome, never a fault. -/
theorem authorize_unknown_card_amended (db : DB) (card : String)
    (hcard : card ≠ "") (hnone : findUserByUid db card = none) :
    api_scan db (some card) = (.deny, db) := by
  unfold api_scan
  simp [hnone, hcard]

theorem authorize_unknown_card_amended_witness :
    "cardX" ≠ "" ∧ findUserByUid dbC6 "cardX" = none ∧
    api_scan dbC6 (some "cardX") = (.deny, dbC6) :=
  ⟨by decide, by decide, authorize_unknown_card_amended dbC6 "cardX" (by decide) (by decide)⟩

-- ===== C8 =====

/-- C8: for every session whose `expires_at` lies strictly in the past,
SubmitScan answers NoActiveSession and performs no state transition at all
(the returned state is the input state, the session row still present). -/
theorem expired_session_no_active (db : DB) (now : Nat) (sid card : String)
    (s : RegistrationSession) (e : Nat)
    (hsid : sid ≠ "") (hcard : card ≠ "")
    (hs : findSession db sid = some s) (he : s.expires_at = some e) (hlt : e < now) :
    api_register_scan db now (some sid) (some card) = (.no_session_or_expired, db) := by
  apply register_scan_expired db now sid card s hsid hcard hs
  unfold sessionExpired
  rw [he]
  simpa using hlt

theorem expired_session_no_active_witness :
    "s1" ≠ "" ∧ "cardA" ≠ "" ∧ findSession dbC8 "s1" = some ⟨"s1", some "cardA", 1, some 100⟩ ∧
    (100 : Nat) < 200 ∧
    api_register_scan dbC8 200 (some "s1") (some "cardA") = (.no_session_or_expired, dbC8) :=
  ⟨by decide, by decide, by decide, by decide,
   expired_session_no_active dbC8 200 "s1" "cardA" ⟨"s1", some "cardA", 1, some 100⟩ 100
     (by decide) (by decide) (by decide) (by decide) (by decide)⟩

-- ===== C9 =====

/-- C9 (code bug): the status query fails whenever an active session exists,
because main.py line 348 reads `session.first_rfid_uid` while the model
declares the column `first_uid` (line 89) — an AttributeError, not the
claimed side-effect-free projection that never fails. -/
theorem check_status_errors_on_active_session (db : DB) (now : Nat) (sid : String)
    (h : (findActiveSession db sid now).isSome) :
    check_status db now sid =
      .error "AttributeError: RegistrationSession object has no attribute first_rfid_uid" := by
  unfold check_status
  obtain ⟨s, hs⟩ := Option.isSome_iff_exists.mp h
  rw [hs]

theorem check_status_errors_on_active_session_witness :
    (findActiveSession dbC9 "s1" 50).isSome ∧
    check_status dbC9 50 "s1" =
      .error "AttributeError: RegistrationSession object has no attribute first_rfid_uid" :=
  ⟨by decide, check_status_errors_on_active_session dbC9 50 "s1" (by decide)⟩

-- ===== double scan helper =====

lemma double_scan_full (db : DB) (t₁ t₂ : Nat) (sid card : String)
    (s : RegistrationSession) (u : User)
    (hsid : sid ≠ "") (hcard : card ≠ "")
    (hs : findSession db sid = some s) (hexp : sessionExpired s t₁ = false) (hstep : s.step = 0)
    (hu : findUser db sid = some u)
    (hother : findOtherWithUid db card sid = none)
    (ht₂ : ¬ (t₁ + 90 < t₂)) :
    (api_register_scan db t₁ (some sid) (some card)).1 = .first_scan_ok ∧
    ∃ db2, api_register_scan (api_register_scan db t₁ (some sid) (some card)).2 t₂
        (some sid) (some card) = (.bound, db2) ∧
      findSession db2 sid = none ∧
      findUser db2 sid = some { u with rfid_uid := some card } ∧
      findUserByUid db2 card = some { u with rfid_uid := some card } ∧
      db2.access_logs = db.access_logs ++ [⟨sid, card, "SCAN_1"⟩, ⟨sid, card, "bind"⟩] ∧
      u.student_id = sid := by
  have h1 := register_scan_first db t₁ sid card s hsid hcard hs hexp hstep hother
  rw [h1]
  refine ⟨rfl, ?_⟩
  dsimp only
  have hsess1 : findSession (addLog (setSession db sid (fun t =>
      { t with first_uid := some card, step := 1, expires_at := some (t₁ + 90) })) sid card "SCAN_1") sid =
      some { s with first_uid := some card, step := 1, expires_at := some (t₁ + 90) } := by
    have h2 : findSession (addLog (setSession db sid (fun t =>
        { t with first_uid := some card, step := 1, expires_at := some (t₁ + 90) })) sid card "SCAN_1") sid =
        findSession (setSession db sid (fun t =>
        { t with first_uid := some card, step := 1, expires_at := some (t₁ + 90) })) sid := rfl
    rw [h2, findSession_setSession_self db sid (fun t =>
      { t with first_uid := some card, step := 1, expires_at := some (t₁ + 90) }) (fun t => rfl), hs]
    rfl
  have hb := register_scan_bind
    (addLog (setSession db sid (fun t =>
      { t with first_uid := some card, step := 1, expires_at := some (t₁ + 90) })) sid card "SCAN_1")
    t₂ sid card
    { s with first_uid := some card, step := 1, expires_at := some (t₁ + 90) } u
    hsid hcard hsess1 (by unfold sessionExpired; simpa using ht₂) rfl rfl hu hother
  rw [hb]
  refine ⟨_, rfl, ?_, ?_, ?_, ?_, ?_⟩
  · exact findSession_deleteSession_self _ sid
  · exact findUser_setUserUid_self _ sid card u hu
  · exact findUserByUid_setUserUid _ sid card u hu hother
  · simp [deleteSession, addLog, setUserUid, setSession]
  · have h3 : (u.student_id == sid) = true := by
      have hu2 : db.users.find? (fun v => v.student_id == sid) = some u := hu
      have := List.find?_some hu2
      simpa using this
    simpa using h3

-- ===== C4 =====

/-- C4: the enrollment round trip: from an active step-0 session, submitting
the same free card twice yields FirstScanAccepted then Bound, deletes the
session, binds the card to the identity, appends the SCAN_1 and bind audit
records, and a subsequent gate authorize of that card answers Allow with that
identity. -/
theorem enroll_then_authorize_round_trip (db : DB) (t₁ t₂ : Nat) (sid card : String)
    (s : RegistrationSession) (u : User)
    (hsid : sid ≠ "") (hcard : card ≠ "")
    (hs : findSession db sid = some s) (hexp : sessionExpired s t₁ = false) (hstep : s.step = 0)
    (hu : findUser db sid = some u)
    (hother : findOtherWithUid db card sid = none)
    (ht₂ : ¬ (t₁ + 90 < t₂)) :
    (api_register_scan db t₁ (some sid) (some card)).1 = .first_scan_ok ∧
    ∃ db2, api_register_scan (api_register_scan db t₁ (some sid) (some card)).2 t₂
        (some sid) (some card) = (.bound, db2) ∧
      findSession db2 sid = none ∧
      findUser db2 sid = some { u with rfid_uid := some card } ∧
      db2.access_logs = db.access_logs ++ [⟨sid, card, "SCAN_1"⟩, ⟨sid, card, "bind"⟩] ∧
      (api_scan db2 (some card)).1 = .allow u.student_id u.name ∧
      u.student_id = sid := by
  obtain ⟨h1, db2, he, hsess, huser, hbyuid, hlogs, husid⟩ :=
    double_scan_full db t₁ t₂ sid card s u hsid hcard hs hexp hstep hu hother ht₂
  refine ⟨h1, db2, he, hsess, huser, hlogs, ?_, husid⟩
  unfold api_scan
  simp [hbyuid, hcard]

theorem enroll_then_authorize_round_trip_witness :
    findSession dbC4 "s1" = some ⟨"s1", none, 0, some 100⟩ ∧
    findUser dbC4 "s1" = some ⟨"s1", "Alice", none⟩ ∧
    findOtherWithUid dbC4 "cardA" "s1" = none ∧
    ((api_register_scan dbC4 10 (some "s1") (some "cardA")).1 = .first_scan_ok ∧
     ∃ db2, api_register_scan (api_register_scan dbC4 10 (some "s1") (some "cardA")).2 20
         (some "s1") (some "cardA") = (.bound, db2) ∧
       findSession db2 "s1" = none ∧
       findUser db2 "s1" = some ⟨"s1", "Alice", some "cardA"⟩ ∧
       db2.access_logs = dbC4.access_logs ++ [⟨"s1", "cardA", "SCAN_1"⟩, ⟨"s1", "cardA", "bind"⟩] ∧
       (api_scan db2 (some "cardA")).1 = .allow "s1" "Alice" ∧
       ("s1" : String) = "s1") :=
  ⟨by decide, by decide, by decide,
   enroll_then_authorize_round_trip dbC4 10 20 "s1" "cardA" ⟨"s1", none, 0, some 100⟩
     ⟨"s1", "Alice", none⟩ (by decide) (by decide) (by decide) (by decide) (by decide)
     (by decide) (by decide) (by decide)⟩

-- ===== C5 =====

/-- C5 counterexample: a mismatching confirm scan resets the session to step 0
with a fresh TTL but appends no audit record at all — `access_logs` stays
empty, refuting the claimed BIND_MISMATCH record. -/
theorem mismatch_appends_no_audit_cex :
    (api_register_scan dbC5 50 (some "s1") (some "cardB")).1 = .mismatch ∧
    (api_register_scan dbC5 50 (some "s1") (some "cardB")).2.access_logs = [] ∧
    (api_register_scan dbC5 50 (some "s1") (some "cardB")).2.sessions =
      [⟨"s1", none, 0, some 140⟩] := by
  refine ⟨rfl, rfl, rfl⟩

/-- C5 amended: a confirm scan whose card differs from the pending one answers
MismatchRetry, resets the session to step 0 with `first_uid` cleared and the
TTL refreshed, appends no audit record, and a subsequent pair of identical
scans of the original card within the refreshed window still binds it. -/
theorem mismatch_reset_amended (db : DB) (t₁ t₂ t₃ : Nat) (sid cardA cardB : String)
    (s : RegistrationSession) (u : User)
    (hsid : sid ≠ "") (hA : cardA ≠ "") (hB : cardB ≠ "")
    (hs : findSession db sid = some s) (hexp : sessionExpired s t₁ = false)
    (hstep : s.step = 1) (hfirst : s.first_uid = some cardA) (hAB : cardA ≠ cardB)
    (hu : findUser db sid = some u)
    (hotherA : findOtherWithUid db cardA sid = none)
    (ht₂ : ¬ (t₁ + 90 < t₂)) (ht₃ : ¬ (t₂ + 90 < t₃)) :
    ∃ db1, api_register_scan db t₁ (some sid) (some cardB) = (.mismatch, db1) ∧
      db1.access_logs = db.access_logs ∧
      db1.users = db.users ∧
      findSession db1 sid = some { s with first_uid := none, step := 0, expires_at := some (t₁ + 90) } ∧
      (api_register_scan db1 t₂ (some sid) (some cardA)).1 = .first_scan_ok ∧
      ∃ db3, api_register_scan (api_register_scan db1 t₂ (some sid) (some cardA)).2 t₃
          (some sid) (some cardA) = (.bound, db3) ∧
        findUser db3 sid = some { u with rfid_uid := some cardA } := by
  have hm := register_scan_mismatch db t₁ sid cardB s hsid hB hs hexp hstep
    (by rw [hfirst]; simp [hAB])
  rw [hm]
  have hsess1 : findSession (setSession db sid (fun t =>
      { t with first_uid := none, step := 0, expires_at := some (t₁ + 90) })) sid =
      some { s with first_uid := none, step := 0, expires_at := some (t₁ + 90) } := by
    rw [findSession_setSession_self db sid (fun t =>
      { t with first_uid := none, step := 0, expires_at := some (t₁ + 90) }) (fun t => rfl), hs]
    rfl
  obtain ⟨h1, db3, he, _, huser, _, _, _⟩ :=
    double_scan_full (setSession db sid (fun t =>
        { t with first_uid := none, step := 0, expires_at := some (t₁ + 90) }))
      t₂ t₃ sid cardA
      { s with first_uid := none, step := 0, expires_at := some (t₁ + 90) } u
      hsid hA hsess1 (by unfold sessionExpired; simpa using ht₂) rfl hu hotherA ht₃
  exact ⟨_, rfl, rfl, rfl, hsess1, h1, db3, he, huser⟩

theorem mismatch_reset_amended_witness :
    findSession dbC5 "s1" = some ⟨"s1", some "cardA", 1, some 100⟩ ∧
    findUser dbC5 "s1" = some ⟨"s1", "Alice", none⟩ ∧
    findOtherWithUid dbC5 "cardA" "s1" = none ∧
    (∃ db1, api_register_scan dbC5 50 (some "s1") (some "cardB") = (.mismatch, db1) ∧
      db1.access_logs = dbC5.access_logs ∧
      db1.users = dbC5.users ∧
      findSession db1 "s1" = some ⟨"s1", none, 0, some 140⟩ ∧
      (api_register_scan db1 60 (some "s1") (some "cardA")).1 = .first_scan_ok ∧
      ∃ db3, api_register_scan (api_register_scan db1 60 (some "s1") (some "cardA")).2 70
          (some "s1") (some "cardA") = (.bound, db3) ∧
        findUser db3 "s1" = some ⟨"s1", "Alice", some "cardA"⟩) :=
  ⟨by decide, by decide, by decide,
   mismatch_reset_amended dbC5 50 60 70 "s1" "cardA" "cardB"
     ⟨"s1", some "cardA", 1, some 100⟩ ⟨"s1", "Alice", none⟩
     (by decide) (by decide) (by decide) (by decide) (by decide) (by decide) (by decide)
     (by decide) (by decide) (by decide) (by decide) (by decide)⟩

-- ===== C7 =====

/-- C7 counterexample: cardB is bound to s2, yet submitting it at s1's confirm
scan (pending cardA) yields MismatchRetry with a session reset — not
CardAlreadyBound as the claim demands for every bound-elsewhere card. -/
theorem confirm_mismatch_bound_card_cex :
    (api_register_scan dbC7 50 (some "s1") (some "cardB")).1 = .mismatch ∧
    (api_register_scan dbC7 50 (some "s1") (some "cardB")).2.sessions =
      [⟨"s1", none, 0, some 140⟩] := by
  refine ⟨rfl, rfl⟩

/-- C7 amended: CardAlreadyBound fires at the first scan for every card bound
to a different identity (database unchanged, session left in step 0), and at
the confirm scan only when the presented card also matches `first_uid`
(session deleted, forcing a restart); a mismatching confirm card takes the
MismatchRetry path even when bound elsewhere. -/
theorem card_already_bound_checks_amended (db : DB) (now : Nat) (sid card : String)
    (s : RegistrationSession)
    (hsid : sid ≠ "") (hcard : card ≠ "")
    (hs : findSession db sid = some s) (hexp : sessionExpired s now = false)
    (hbound : (findOtherWithUid db card sid).isSome) :
    (s.step = 0 → api_register_scan db now (some sid) (some card) = (.uid_already_bound, db)) ∧
    (s.step = 1 → s.first_uid = some card → (findUser db sid).isSome →
      api_register_scan db now (some sid) (some card) =
        (.uid_already_bound_by_other, deleteSession db sid)) := by
  constructor
  · intro hstep
    exact register_scan_bound_first db now sid card s hsid hcard hs hexp hstep hbound
  · intro hstep hfirst hu
    exact register_scan_bound_confirm db now sid card s hsid hcard hs hexp hstep hfirst hu hbound

theorem card_already_bound_checks_amended_witness :
    ((findOtherWithUid dbC4 "cardB" "s1").isSome ∧
     api_register_scan dbC4 50 (some "s1") (some "cardB") = (.uid_already_bound, dbC4)) ∧
    ((findOtherWithUid dbC7b "cardB" "s1").isSome ∧
     api_register_scan dbC7b 50 (some "s1") (some "cardB") =
       (.uid_already_bound_by_other, deleteSession dbC7b "s1")) :=
  ⟨⟨by decide,
    (card_already_bound_checks_amended dbC4 50 "s1" "cardB" ⟨"s1", none, 0, some 100⟩
      (by decide) (by decide) (by decide) (by decide) (by decide)).1 rfl⟩,
   ⟨by decide,
    (card_already_bound_checks_amended dbC7b 50 "s1" "cardB" ⟨"s1", some "cardB", 1, some 100⟩
      (by decide) (by decide) (by decide) (by decide) (by decide)).2 rfl rfl (by decide)⟩⟩

-- ===== C10 =====

/-- C10: an identity holds at most one card (the binding is the single
nullable `rfid_uid` field), and a successful confirm bind for an identity that
already holds a card replaces the previous binding with the new card instead
of failing or adding a second one. -/
theorem rebind_replaces_previous_binding (db : DB) (now : Nat)
    (sid oldCard card : String) (s : RegistrationSession) (u : User)
    (hsid : sid ≠ "") (hcard : card ≠ "")
    (hs : findSession db sid = some s) (hexp : sessionExpired s now = false)
    (hstep : s.step = 1) (hfirst : s.first_uid = some card)
    (hu : findUser db sid = some u) (_hold : u.rfid_uid = some oldCard)
    (hother : findOtherWithUid db card sid = none) :
    (api_register_scan db now (some sid) (some card)).1 = .bound ∧
    findUser (api_register_scan db now (some sid) (some card)).2 sid =
      some { u with rfid_uid := some card } := by
  have h := register_scan_bind db now sid card s u hsid hcard hs hexp hstep hfirst hu hother
  rw [h]
  exact ⟨rfl, findUser_setUserUid_self db sid card u hu⟩

theorem rebind_replaces_previous_binding_witness :
    findUser dbC10 "s1" = some ⟨"s1", "Alice", some "cardOld"⟩ ∧
    ((api_register_scan dbC10 50 (some "s1") (some "cardNew")).1 = .bound ∧
     findUser (api_register_scan dbC10 50 (some "s1") (some "cardNew")).2 "s1" =
       some ⟨"s1", "Alice", some "cardNew"⟩) :=
  ⟨by decide,
   rebind_replaces_previous_binding dbC10 50 "s1" "cardOld" "cardNew"
     ⟨"s1", some "cardNew", 1, some 100⟩ ⟨"s1", "Alice", some "cardOld"⟩
     (by decide) (by decide) (by decide) (by decide) (by decide) (by decide) (by decide)
     (by decide) (by decide)⟩

-- ===== C2 =====

/-- C2 (code bug): two concurrent confirm scans for different identities and
the same unbound card.  In the check-check-commit-commit interleaving both
SELECTs pass, one call binds, and the loser fails at COMMIT with the unique
constraint — the unhandled IntegrityError — instead of the claimed
CardAlreadyBound; exactly one bind audit record is written and the card ends
bound to exactly one identity.  Fully serialized, the loser does receive
CardAlreadyBound, matching the claim. -/
theorem confirm_race_loser_integrity_error :
    (runRace raceC2 [true, false, true, false]).ta.result = some .bound ∧
    (runRace raceC2 [true, false, true, false]).tb.result = some .integrity_error ∧
    ((runRace raceC2 [true, false, true, false]).db.access_logs.filter
      (fun l => l.action == "bind")).length = 1 ∧
    (runRace raceC2 [true, false, true, false]).db.users =
      [⟨"s1", "Alice", some "card1"⟩, ⟨"s2", "Bob", none⟩] ∧
    (runRace raceC2 [true, true, false, false]).ta.result = some .bound ∧
    (runRace raceC2 [true, true, false, false]).tb.result = some .uid_already_bound_by_other := by
  refine ⟨rfl, rfl, rfl, rfl, rfl, rfl⟩
